import Mathlib

/-!
Shallow embedding, in Lean 4, of the two command-line tools of this
repository (`transcribe.py`, `process_text.py`) and their shared helpers
(`common.py`).  Filesystem paths are modelled as lists of path components
(`List String`), filesystem state and the remote Gemini service as explicit
record-of-functions environments, Python exceptions as an `Except` result,
and the observable actions of a run (prompt loads, uploads, generation
calls, file writes, remote deletions) as an explicit event trace.

The embedding targets the POSIX semantics of CPython's `pathlib` and
`fnmatch`: name matching in `Path.glob` / `Path.rglob` / `fnmatch.fnmatch`
is case-sensitive (no `os.path.normcase` rewriting happens on POSIX).
-/

/-- Python `str(e)` of the exception kinds this code base can raise.
Each constructor keeps the message the source builds. -/
inductive PyErr where
  | fileNotFound (msg : String)
  | valueError (msg : String)
  | isADirectory (msg : String)
  | exception (msg : String)
deriving DecidableEq, Repr

/-- Python `str(e)`: the human-readable message of the raised exception. -/
def pyErrMsg : PyErr → String
  | .fileNotFound m => m
  | .valueError m => m
  | .isADirectory m => m
  | .exception m => m

/-- Equality of `Except` results is decidable, so witnesses can evaluate
the embedded functions on concrete inputs with `decide`. -/
instance {ε α : Type} [DecidableEq ε] [DecidableEq α] : DecidableEq (Except ε α)
  | .ok x, .ok y =>
    if h : x = y then .isTrue (by rw [h]) else .isFalse (fun hc => h (Except.ok.inj hc))
  | .error x, .error y =>
    if h : x = y then .isTrue (by rw [h]) else .isFalse (fun hc => h (Except.error.inj hc))
  | .ok _, .error _ => .isFalse (fun hc => Except.noConfusion hc)
  | .error _, .ok _ => .isFalse (fun hc => Except.noConfusion hc)

/-- What the filesystem holds at a path: a regular file with its text
content, a directory, or nothing. -/
inductive Node where
  | file (content : String)
  | dir
  | absent
deriving DecidableEq, Repr

/-- A path, as the list of its components (CPython `PurePath._parts`). -/
abbrev FsPath := List String

/-- `Path.name`: the final path component. -/
def pathName (p : FsPath) : String := (p.getLast?).getD ""

/-- `str(Path(...))` on POSIX: components joined by slashes. -/
def pathStr (p : FsPath) : String := String.intercalate "/" p

/-- Python `str.lower` restricted to ASCII letters (the only characters the
extension allow-lists contain). -/
def asciiLower (s : String) : String := String.mk (s.data.map Char.toLower)

/-- `Path.suffix`: the extension of the final component, i.e. `name[i:]`
where `i` is the index of the last dot, provided `0 < i < len(name) - 1`;
otherwise the empty string. -/
def pySuffix (name : String) : String :=
  let rev := name.data.reverse
  let j := rev.findIdx (fun c => c = '.')
  if j = 0 ∨ rev.length ≤ j ∨ j = rev.length - 1 then ""
  else String.mk ((rev.take (j + 1)).reverse)

/-- `Path.stem`: the final component without its `pySuffix`. -/
def pyStem (name : String) : String :=
  let rev := name.data.reverse
  let j := rev.findIdx (fun c => c = '.')
  if j = 0 ∨ rev.length ≤ j ∨ j = rev.length - 1 then name
  else String.mk ((rev.drop (j + 1)).reverse)

/-- Python truthiness of an optional string: `None` and `""` are falsy. -/
def truthyOpt : Option String → Bool
  | none => false
  | some s => !(s == "")

/-- Whether `s` ends with the literal string `ext` (what the glob pattern
`*{ext}` matches on a name, case-sensitively, per POSIX `pathlib`). -/
def strEndsWith (s ext : String) : Bool := ext.data.isSuffixOf s.data

/-! ## fnmatch-style glob matching

`fnmatch.fnmatch(name, pattern)` on POSIX compiles `pattern` with
`fnmatch.translate` and full-matches `name` against it: `*` matches any
(possibly empty) run of characters, `?` any single character, `[...]` a
character class with optional leading `!` negation and `a-b` ranges; a `[`
with no closing `]` is a literal `[`; a `]` directly after `[` or `[!` is
part of the class. -/

/-- Split a character-class body: everything up to the first `]`, plus the
rest after it; `none` when no closing `]` exists. -/
def takeUntilRB : List Char → Option (List Char × List Char)
  | [] => none
  | c :: t =>
    if c = ']' then some ([], t)
    else
      match takeUntilRB t with
      | none => none
      | some (body, rest) => some (c :: body, rest)

/-- A leading `!` right after `[` negates the class and is consumed. -/
def bracketNeg (cs : List Char) : Bool × List Char :=
  match cs with
  | c :: t => if c = '!' then (true, t) else (false, cs)
  | [] => (false, [])

/-- A `]` directly after `[` (or `[!`) is a literal member of the class. -/
def bracketLead (cs : List Char) : List Char × List Char :=
  match cs with
  | c :: t => if c = ']' then ([']'], t) else ([], cs)
  | [] => ([], [])

/-- Parse the text following a `[`: returns (negated?, class body, rest of
the pattern after the closing `]`), or `none` when the `[` is literal
because no closing `]` exists. -/
def parseBracket (cs : List Char) : Option (Bool × List Char × List Char) :=
  let n := bracketNeg cs
  let l := bracketLead n.2
  match takeUntilRB l.2 with
  | none => none
  | some (body, rest) => some (n.1, l.1 ++ body, rest)

/-- Membership of a character in a class body, with `a-b` ranges. -/
def charInSet (c : Char) : List Char → Bool
  | a :: '-' :: b :: rest => (a ≤ c && c ≤ b) || charInSet c rest
  | a :: rest => (c = a) || charInSet c rest
  | [] => false

/-- Full-string glob matching, the POSIX semantics of
`fnmatch.fnmatch(name, pattern)` (`os.path.normcase` is the identity
there, so matching is case-sensitive).  The `fuel` argument only makes the
recursion structural so the kernel can evaluate it: every recursive call
strictly decreases `p.length + s.length` (for the class case this is
`parseBracket_rest_lt`), so fuel `p.length + s.length + 1` is never
exhausted and the `fuel = 0` arm is unreachable from `globMatch`. -/
def globMatchF : Nat → List Char → List Char → Bool
  | 0, _, _ => false
  | fuel + 1, p, s =>
    match p, s with
    | [], s => s.isEmpty
    | '*' :: ps, s =>
      globMatchF fuel ps s ||
        (match s with
         | [] => false
         | _ :: t => globMatchF fuel ('*' :: ps) t)
    | '?' :: ps, s =>
      (match s with
       | [] => false
       | _ :: t => globMatchF fuel ps t)
    | '[' :: ps, s =>
      (match parseBracket ps with
       | none =>
         match s with
         | [] => false
         | c :: t => c = '[' && globMatchF fuel ps t
       | some (neg, body, rest) =>
         match s with
         | [] => false
         | c :: t => (charInSet c body != neg) && globMatchF fuel rest t)
    | pc :: ps, s =>
      (match s with
       | [] => false
       | c :: t => c = pc && globMatchF fuel ps t)

/-- Glob matching of a whole name against a whole pattern. -/
def globMatch (p s : List Char) : Bool := globMatchF (p.length + s.length + 1) p s

/-- `fnmatch.fnmatch(name, pattern)` on strings. -/
def fnmatch (name pat : String) : Bool := globMatch pat.data name.data

/-! ## File discovery (`collect_text_files` / `collect_audio_files`)

A directory scan is modelled as the list of every entry under the root:
its path relative to the root (a non-empty component list) and whether it
is a directory.  `Path.glob('*' + ext)` yields the immediate children
(depth 1) whose final name ends with `ext`; `Path.rglob` does the same at
every depth.  POSIX `pathlib` matches case-sensitively, matches entries of
any kind (directories included), and does not exclude dot-files. -/

/-- One entry of a recursive directory listing. -/
structure Dirent where
  rel : FsPath
  isDir : Bool
deriving DecidableEq, Repr

/-- `TEXT_EXTENSIONS` of `process_text.py`. -/
def TEXT_EXTENSIONS : List String := [".txt", ".md", ".text"]

/-- `AUDIO_EXTENSIONS` of `transcribe.py`. -/
def AUDIO_EXTENSIONS : List String := [".mp3", ".wav", ".aiff", ".aac", ".ogg", ".flac"]

/-- `sorted(...)` over `pathlib.Path` values: Python compares paths by
their component tuples, lexicographically with code-point string order,
which is exactly `≤` on `List String`.  `sorted` returns a sorted
permutation of its input, as `List.insertionSort` does. -/
def sortPaths (l : List FsPath) : List FsPath := l.insertionSort (· ≤ ·)

/-- The shared shape of `collect_text_files` and `collect_audio_files`:
for each allow-listed extension, glob (resp. rglob) the directory for
`*{ext}`; optionally post-filter by `fnmatch` on the entry name; sort. -/
def collect_files (exts : List String) (entries : List Dirent) (recursive : Bool)
    (pat : Option String) : List FsPath :=
  let found := exts.flatMap (fun ext =>
    (entries.filter (fun e =>
      (recursive || e.rel.length == 1) && strEndsWith (pathName e.rel) ext)).map Dirent.rel)
  let found :=
    match pat with
    | some p => found.filter (fun f => fnmatch (pathName f) p)
    | none => found
  sortPaths found

/-- `process_text.collect_text_files`. -/
def collect_text_files (entries : List Dirent) (recursive : Bool) (pat : Option String) :
    List FsPath :=
  collect_files TEXT_EXTENSIONS entries recursive pat

/-- `transcribe.collect_audio_files`. -/
def collect_audio_files (entries : List Dirent) (recursive : Bool) (pat : Option String) :
    List FsPath :=
  collect_files AUDIO_EXTENSIONS entries recursive pat

/-! ## Observable actions of a run

Each Python function is embedded as a pure function returning its
`Except PyErr` outcome together with the ordered trace of observable
actions it performed (console printing is not modelled). -/

/-- Observable actions: a call to a `load_prompt` function, a remote
upload, a remote generation call (with the exact prompt string it was
given), a local file write, and the best-effort remote deletion attempt
(recording whether the remote delete succeeded). -/
inductive Event where
  | promptLoad
  | upload (path : FsPath)
  | genCall (prompt : String) (payload : String)
  | write (path : FsPath) (content : String)
  | deleteAttempt (handle : String) (ok : Bool)
deriving DecidableEq, Repr

/-- Recognize a `promptLoad` event. -/
def Event.isPromptLoad : Event → Bool
  | .promptLoad => true
  | _ => false

/-- Recognize a `deleteAttempt` event. -/
def Event.isDeleteAttempt : Event → Bool
  | .deleteAttempt _ _ => true
  | _ => false

/-- The content a path holds after a trace of writes: the last `write` to
it wins, which is the overwrite semantics of `Path.write_text`. -/
def lastWrite (ev : List Event) (p : FsPath) : Option String :=
  ev.foldl
    (fun acc e =>
      match e with
      | .write q t => if q = p then some t else acc
      | _ => acc)
    none

/-! ## `common.py`: rules loading and prompt composition -/

/-- One record of the rules YAML file, as `load_rules` reads it: each
field is fetched with `rule.get(key, '')`, so an absent field is the empty
string (which is falsy in Python). -/
structure Rule where
  id : String
  judgement : String
  correct : String
  ng : String
  condition : String
  sampleText : String
  note : String
deriving DecidableEq, Repr

/-- The lines `load_rules` appends for one rule: a fixed-order labeled
record, keeping only the fields that are present (non-empty). -/
def ruleRecord (rule : Rule) : String :=
  "【ルール " ++ rule.id ++ "】\n"
    ++ (if rule.judgement != "" then "  判定: " ++ rule.judgement ++ "\n" else "")
    ++ (if rule.correct != "" then "  正しい表記: " ++ rule.correct ++ "\n" else "")
    ++ (if rule.ng != "" then "  誤った表記: " ++ rule.ng ++ "\n" else "")
    ++ (if rule.condition != "" then "  条件: " ++ rule.condition ++ "\n" else "")
    ++ (if rule.sampleText != "" then "  例: " ++ rule.sampleText ++ "\n" else "")
    ++ (if rule.note != "" then "  備考: " ++ rule.note ++ "\n" else "")
    ++ "\n"

/-- The fixed text `load_rules` starts the block with. -/
def rulesHeader : String :=
  "\n=== 表記ルール ===\n以下の表記ルールに従って処理してください:\n\n"

/-- The fixed text `load_rules` ends the block with. -/
def rulesFooter : String := "=== 表記ルール終了 ===\n\n"

/-- The accumulation loop of `load_rules` (`rules_text += ...`). -/
def formatRulesText (rules : List Rule) : String :=
  (rules.foldl (fun acc r => acc ++ ruleRecord r) rulesHeader) ++ rulesFooter

/-- Environment of the text tool: the input filesystem (paths as component
lists), the auxiliary files addressed by plain strings (custom prompts,
built-in prompt templates, rules files), the parsed content the YAML
loader produces for a rules file, the remote generation service as a
function of (prompt, inline text content), and the credential check.
All of it is immutable for the duration of one run, as nothing in the
source mutates these during a run. -/
structure TextEnv where
  node : FsPath → Node
  auxExists : String → Bool
  auxRead : String → String
  rulesParse : String → Option (List Rule)
  genText : String → String → Except String String
  apiKeyOk : Bool

/-- `common.load_rules`: `None` path is falsy and yields no rules text; a
named but missing file raises `FileNotFoundError`; a file whose YAML
loads to a falsy value (null or empty list) yields no rules text;
otherwise the formatted block. -/
def load_rules (env : TextEnv) (rules_path : Option String) : Except PyErr (Option String) :=
  if !truthyOpt rules_path then .ok none
  else
    let rp := rules_path.getD ""
    if !env.auxExists rp then .error (.fileNotFound ("Rules file not found: " ++ rp))
    else
      match env.rulesParse rp with
      | none => .ok none
      | some [] => .ok none
      | some rules => .ok (some (formatRulesText rules))

/-- The base-prompt resolution of `common.load_prompt` (its first half):
a truthy custom path wins (and must exist); else a truthy prompt type
selects `prompts/{type}.txt` (which must exist); else `ValueError`. -/
def load_prompt_base (env : TextEnv) (prompt_type custom_path : Option String) :
    Except PyErr String :=
  if truthyOpt custom_path then
    let cp := custom_path.getD ""
    if env.auxExists cp then .ok (env.auxRead cp)
    else .error (.fileNotFound ("Prompt file not found: " ++ cp))
  else if truthyOpt prompt_type then
    let pt := prompt_type.getD ""
    if env.auxExists ("prompts/" ++ pt ++ ".txt") then .ok (env.auxRead ("prompts/" ++ pt ++ ".txt"))
    else .error (.fileNotFound ("Default prompt not found: prompts/" ++ pt ++ ".txt"))
  else .error (.valueError "Either prompt_type or custom_path must be specified")

/-- `common.load_prompt`: resolves the base prompt, then a truthy rules
path prepends the formatted rules text when that text is truthy. -/
def common_load_prompt (env : TextEnv) (prompt_type custom_path rules_path : Option String) :
    Except PyErr String :=
  match load_prompt_base env prompt_type custom_path with
  | .error e => .error e
  | .ok base_prompt =>
    if truthyOpt rules_path then
      match load_rules env rules_path with
      | .error e => .error e
      | .ok none => .ok base_prompt
      | .ok (some rules_text) =>
        if rules_text == "" then .ok base_prompt else .ok (rules_text ++ base_prompt)
    else .ok base_prompt

/-- `common.generate_with_gemini`: a transport failure raises; a falsy
response text raises "Gemini API returned empty response"; otherwise the
text is returned. -/
def generate_with_gemini (env : TextEnv) (prompt content : String) : Except PyErr String :=
  match env.genText prompt content with
  | .error m => .error (.exception m)
  | .ok t => if t == "" then .error (.exception "Gemini API returned empty response") else .ok t

/-! ## `process_text.py` -/

/-- `TASK_TYPES` of `process_text.py`. -/
def TASK_TYPES : List String := ["summarize", "headline", "custom"]

/-- The output-name suffix for a task: `f"_{task}"`, except `_processed`
for the custom task. -/
def taskSuffix (task : String) : String :=
  if task != "custom" then "_" ++ task else "_processed"

/-- The prompt `process_text_file` composes for one item: a truthy
`--prompt` path is passed as the custom path, otherwise the task name is
passed as the prompt type. -/
def ptextItemPrompt (env : TextEnv) (task : String) (prompt_path rules_path : Option String) :
    Except PyErr String :=
  if truthyOpt prompt_path then common_load_prompt env none prompt_path rules_path
  else common_load_prompt env (some task) none rules_path

/-- `process_text.process_text_file`, with its observable trace.  In
source order: existence check, extension check (case-insensitively, on
the single-file path), size advisory (console only, not modelled), output
path defaulting, custom-task prompt requirement, prompt composition (one
`load_prompt` call per invocation), reading the input (raises
`IsADirectoryError` on a directory), client initialisation (credential
check), then the try-block around generation and saving whose failures
are re-raised as "Failed to process text: ...". -/
def process_text_file (env : TextEnv) (text_path : FsPath) (output_path : Option FsPath)
    (task : String) (prompt_path rules_path : Option String) :
    Except PyErr Unit × List Event :=
  if env.node text_path = .absent then
    (.error (.fileNotFound ("Text file not found: " ++ pathStr text_path)), [])
  else if !(TEXT_EXTENSIONS.contains (asciiLower (pySuffix (pathName text_path)))) then
    (.error (.valueError ("Unsupported text format: " ++ pySuffix (pathName text_path))), [])
  else
    let output_path :=
      output_path.getD (text_path.dropLast ++ [pyStem (pathName text_path) ++ taskSuffix task ++ ".md"])
    if task == "custom" && !truthyOpt prompt_path then
      (.error (.valueError "Custom task requires a prompt file (--prompt)"), [])
    else
      match ptextItemPrompt env task prompt_path rules_path with
      | .error e => (.error e, [.promptLoad])
      | .ok prompt =>
        match env.node text_path with
        | .absent => (.error (.fileNotFound ("Text file not found: " ++ pathStr text_path)), [.promptLoad])
        | .dir =>
          (.error (.isADirectory ("[Errno 21] Is a directory: " ++ pathStr text_path)), [.promptLoad])
        | .file text_content =>
          if !env.apiKeyOk then
            (.error (.valueError "Please set your GEMINI_API_KEY in the .env file"), [.promptLoad])
          else
            match generate_with_gemini env prompt text_content with
            | .error e =>
              (.error (.exception ("Failed to process text: " ++ pyErrMsg e)),
                [.promptLoad, .genCall prompt text_content])
            | .ok result =>
              (.ok (),
                [.promptLoad, .genCall prompt text_content, .write output_path result])

/-- The running tally of both tools' `process_multiple_files`: the
returned pair is (`successful`, `failed`); `failed_files` is the local
list of (filename, error message) pairs the loop accumulates for the
summary printout. -/
structure BatchResult where
  successful : Nat
  failed : Nat
  failed_files : List (String × String)
deriving DecidableEq, Repr

/-- The shared loop shape of both tools' `process_multiple_files`: each
item is attempted in list order inside a per-item `try`, a failure is
recorded as (item name, `str(e)`) and the loop continues with the next
item. -/
def runBatch (proc : FsPath → Except PyErr Unit × List Event) :
    List FsPath → BatchResult × List Event
  | [] => (⟨0, 0, []⟩, [])
  | f :: fs =>
    let r := proc f
    let rest := runBatch proc fs
    match r.1 with
    | .ok _ =>
      ({ rest.1 with successful := rest.1.successful + 1 }, r.2 ++ rest.2)
    | .error e =>
      ({ rest.1 with
          failed := rest.1.failed + 1,
          failed_files := (pathName f, pyErrMsg e) :: rest.1.failed_files },
        r.2 ++ rest.2)

/-- The output path `process_text.process_multiple_files` passes for one
item when an output directory is given. -/
def ptextOutPath (output_dir : Option FsPath) (task : String) (f : FsPath) : Option FsPath :=
  output_dir.map (fun d => d ++ [pyStem (pathName f) ++ taskSuffix task ++ ".md"])

/-- `process_text.process_multiple_files`. -/
def ptext_process_multiple_files (env : TextEnv) (text_files : List FsPath)
    (output_dir : Option FsPath) (task : String) (prompt_path rules_path : Option String) :
    BatchResult × List Event :=
  runBatch
    (fun f => process_text_file env f (ptextOutPath output_dir task f) task prompt_path rules_path)
    text_files

/-! ## `transcribe.py` -/

/-- The hardcoded fallback prompt of `transcribe.load_prompt` (a Python
triple-quoted string starting and ending with a newline). -/
def builtin_prompt : String :=
  "\nこの音声ファイルの書き起こしをしてください。書き起こすにあたり、以下のルールを守ってください。\n\n・言葉のヒゲや言い間違い等は除去すること\n・日本語の文法としておかしい部分は読みやすく修正すること\n・上記を守ったうえで、内容についてはできるだけ忠実に書き起こすこと\n"

/-- Environment of the audio tool.  `upload` models
`client.files.upload` (returning the remote handle name or raising),
`gen` models `client.models.generate_content` as a function of (prompt,
remote handle), and `deleteRemote` tells whether `client.files.delete`
succeeds for a handle.  `defaultPromptExists`/`defaultPromptText` model
`default_prompt.txt` next to the script. -/
structure AudioEnv where
  node : FsPath → Node
  auxExists : String → Bool
  auxRead : String → String
  defaultPromptExists : Bool
  defaultPromptText : String
  apiKeyOk : Bool
  upload : FsPath → Except String String
  gen : String → String → Except String String
  deleteRemote : String → Bool

/-- `transcribe.load_prompt`: a truthy custom path must exist and is
read; otherwise `default_prompt.txt` is read when present; otherwise the
hardcoded builtin prompt is returned (no failure possible). -/
def transcribe_load_prompt (env : AudioEnv) (prompt_path : Option String) :
    Except PyErr String :=
  if truthyOpt prompt_path then
    let pp := prompt_path.getD ""
    if env.auxExists pp then .ok (env.auxRead pp)
    else .error (.fileNotFound ("Prompt file not found: " ++ pp))
  else if env.defaultPromptExists then .ok env.defaultPromptText
  else .ok builtin_prompt

/-- `transcribe.transcribe_audio`, with its observable trace.  In source
order: existence check, extension check, size advisory (console only),
output path defaulting, credential check, upload (its failure re-raised
as "Failed to upload audio file: ..."), per-call prompt resolution when
the given `prompt_text` is falsy (`load_prompt()` with no argument, which
cannot fail), then the try/except/finally: generation and saving inside
the `try` (failures re-raised as "Failed to generate transcript: ..."),
and in the `finally` the best-effort remote deletion whose own failure is
swallowed by `except Exception: pass`. -/
def transcribe_audio (env : AudioEnv) (audio_path : FsPath) (output_path : Option FsPath)
    (prompt_text : Option String) : Except PyErr Unit × List Event :=
  if env.node audio_path = .absent then
    (.error (.fileNotFound ("Audio file not found: " ++ pathStr audio_path)), [])
  else if !(AUDIO_EXTENSIONS.contains (asciiLower (pySuffix (pathName audio_path)))) then
    (.error (.valueError ("Unsupported audio format: " ++ pySuffix (pathName audio_path))), [])
  else
    let output_path :=
      output_path.getD (audio_path.dropLast ++ [pyStem (pathName audio_path) ++ "_transcript.txt"])
    if !env.apiKeyOk then
      (.error (.valueError "Please set your GEMINI_API_KEY in the .env file"), [])
    else
      match env.upload audio_path with
      | .error m =>
        (.error (.exception ("Failed to upload audio file: " ++ m)), [.upload audio_path])
      | .ok handle =>
        let promptPair : String × List Event :=
          if truthyOpt prompt_text then (prompt_text.getD "", [])
          else
            (match transcribe_load_prompt env none with
             | .ok s => s
             | .error _ => "",  -- unreachable: load_prompt with no path never raises
              [.promptLoad])
        let prompt := promptPair.1
        let tryRes : Except PyErr Unit × List Event :=
          match env.gen prompt handle with
          | .error m =>
            (.error (.exception ("Failed to generate transcript: " ++ m)),
              [.genCall prompt handle])
          | .ok transcript =>
            if transcript == "" then
              (.error (.exception
                  ("Failed to generate transcript: "
                    ++ "Gemini API returned empty response. The audio file might be too long or unsupported.")),
                [.genCall prompt handle])
            else
              (.ok (), [.genCall prompt handle, .write output_path transcript])
        (tryRes.1,
          [.upload audio_path] ++ promptPair.2 ++ tryRes.2
            ++ [.deleteAttempt handle (env.deleteRemote handle)])

/-- The output path `transcribe.process_multiple_files` passes for one
item when an output directory is given. -/
def audioOutPath (output_dir : Option FsPath) (f : FsPath) : Option FsPath :=
  output_dir.map (fun d => d ++ [pyStem (pathName f) ++ "_transcript.txt"])

/-- `transcribe.process_multiple_files`. -/
def audio_process_multiple_files (env : AudioEnv) (audio_files : List FsPath)
    (output_dir : Option FsPath) (prompt_text : Option String) :
    BatchResult × List Event :=
  runBatch (fun f => transcribe_audio env f (audioOutPath output_dir f) prompt_text) audio_files

/-- The directory branch of `transcribe.main`: the prompt is loaded once,
before any per-file processing; the file list is collected; an empty list
exits 0; otherwise the batch runs and the exit code reflects whether any
item failed.  Returns (exit code, trace). -/
def transcribe_main_dir (env : AudioEnv) (prompt_arg : Option String) (entries : List Dirent)
    (recursive : Bool) (pat : Option String) (output_dir : Option FsPath) :
    Nat × List Event :=
  match transcribe_load_prompt env prompt_arg with
  | .error _ => (1, [.promptLoad])
  | .ok prompt_text =>
    let audio_files := collect_audio_files entries recursive pat
    if audio_files.isEmpty then (0, [.promptLoad])
    else
      let res := audio_process_multiple_files env audio_files output_dir (some prompt_text)
      ((if res.1.failed > 0 then 1 else 0), .promptLoad :: res.2)

/-! ## Properties of the batch driver -/

/-- The per-item failure record the summary list keeps. -/
def failRecord (proc : FsPath → Except PyErr Unit × List Event) (f : FsPath) :
    Option (String × String) :=
  match (proc f).1 with
  | .error e => some (pathName f, pyErrMsg e)
  | .ok _ => none

/-! ## Properties of file discovery -/

/-- The optional post-filter applied to an entry name. -/
def patOk (pat : Option String) (name : String) : Bool :=
  match pat with
  | none => true
  | some p => fnmatch name p

/-- The condition under which one scan (glob or rglob over all
allow-listed extensions) yields an entry. -/
def collectPred (exts : List String) (recursive : Bool) (e : Dirent) : Bool :=
  (recursive || e.rel.length == 1) && exts.any (fun ext => strEndsWith (pathName e.rel) ext)

/-- The concatenated raw glob results, before pattern filtering and
sorting. -/
def collectRaw (exts : List String) (entries : List Dirent) (recursive : Bool) : List FsPath :=
  exts.flatMap (fun ext =>
    (entries.filter (fun e =>
      (recursive || e.rel.length == 1) && strEndsWith (pathName e.rel) ext)).map Dirent.rel)

/-! ## Properties of prompt composition -/

/-- The in-order concatenation of the labeled records of a rules list. -/
def concatRuleRecords : List Rule → String
  | [] => ""
  | r :: rs => ruleRecord r ++ concatRuleRecords rs

/-- Rule with only `id`, `判定` and `正解` present, used by witnesses. -/
def cRule : Rule := ⟨"1", "判定A", "正しいA", "", "", "", ""⟩

/-- Concrete text-tool environment used by witnesses: two input files, a
directory named like a text file, a custom prompt `p.txt`, the built-in
`summarize` template, a non-empty rules file `r.yaml` and an empty rules
file `er.yaml`. -/
def cTextEnv : TextEnv where
  node := fun p =>
    if p = ["a.txt"] then .file "AAA"
    else if p = ["b.txt"] then .file "BBB"
    else if p = ["docs", "notes.txt"] then .dir
    else .absent
  auxExists := fun s =>
    s == "p.txt" || s == "prompts/summarize.txt" || s == "r.yaml" || s == "er.yaml"
  auxRead := fun s =>
    if s == "p.txt" then "BASE" else if s == "prompts/summarize.txt" then "SUM" else ""
  rulesParse := fun s => if s == "r.yaml" then some [cRule] else none
  genText := fun _ c => .ok ("GEN:" ++ c)
  apiKeyOk := true

/-- Concrete audio-tool environment used by witnesses: three audio files
(two sharing the stem `x` in different subdirectories), no
`default_prompt.txt`, uploads succeeding with the path string as remote
handle, generation echoing the handle, and remote deletion succeeding. -/
def cAudioEnv : AudioEnv where
  node := fun p =>
    if p = ["x.mp3"] then .file "X"
    else if p = ["a", "x.mp3"] then .file "A"
    else if p = ["b", "x.mp3"] then .file "B"
    else .absent
  auxExists := fun _ => false
  auxRead := fun _ => ""
  defaultPromptExists := false
  defaultPromptText := ""
  apiKeyOk := true
  upload := fun p => .ok (pathStr p)
  gen := fun _ h => .ok ("T:" ++ h)
  deleteRemote := fun _ => true

/-- Concrete text-tool environment for the output-collision witness: two
input files sharing the stem `doc` in different subdirectories, the
built-in `summarize` template, and generation echoing the input text. -/
def cTextEnv2 : TextEnv where
  node := fun p =>
    if p = ["x", "doc.txt"] then .file "XDOC"
    else if p = ["y", "doc.txt"] then .file "YDOC"
    else .absent
  auxExists := fun s => s == "prompts/summarize.txt"
  auxRead := fun s => if s == "prompts/summarize.txt" then "SUM" else ""
  rulesParse := fun _ => none
  genText := fun _ c => .ok ("GEN:" ++ c)
  apiKeyOk := true

theorem takeUntilRB_rest_lt {cs body rest : List Char}
    (h : takeUntilRB cs = some (body, rest)) : rest.length < cs.length := by
  induction cs generalizing body rest with
  | nil => simp [takeUntilRB] at h
  | cons c t ih =>
    rw [takeUntilRB] at h
    split at h
    · simp only [Option.some.injEq, Prod.mk.injEq] at h
      obtain ⟨-, hr⟩ := h
      subst hr
      simp
    · split at h
      · exact absurd h (by simp)
      · rename_i body' rest' heq
        simp only [Option.some.injEq, Prod.mk.injEq] at h
        obtain ⟨-, hr⟩ := h
        subst hr
        have := ih heq
        simp only [List.length_cons]
        omega

theorem bracketNeg_len (cs : List Char) : (bracketNeg cs).2.length ≤ cs.length := by
  cases cs with
  | nil => simp [bracketNeg]
  | cons c t => simp only [bracketNeg]; split <;> simp

theorem bracketLead_len (cs : List Char) : (bracketLead cs).2.length ≤ cs.length := by
  cases cs with
  | nil => simp [bracketLead]
  | cons c t => simp only [bracketLead]; split <;> simp

theorem parseBracket_rest_lt {cs : List Char} {neg : Bool} {body rest : List Char}
    (h : parseBracket cs = some (neg, body, rest)) : rest.length < cs.length := by
  unfold parseBracket at h
  dsimp only at h
  have h1 : (bracketNeg cs).2.length ≤ cs.length := bracketNeg_len cs
  have h2 : (bracketLead (bracketNeg cs).2).2.length ≤ (bracketNeg cs).2.length :=
    bracketLead_len _
  split at h
  · simp at h
  · rename_i heq
    simp only [Option.some.injEq, Prod.mk.injEq] at h
    obtain ⟨-, -, hr⟩ := h
    subst hr
    have := takeUntilRB_rest_lt heq
    omega

theorem runBatch_sum (proc : FsPath → Except PyErr Unit × List Event) (files : List FsPath) :
    (runBatch proc files).1.successful + (runBatch proc files).1.failed = files.length := by
  induction files with
  | nil => rfl
  | cons f fs ih =>
    simp only [runBatch]
    cases h : (proc f).1 <;> simp <;> omega

theorem runBatch_failed_files (proc : FsPath → Except PyErr Unit × List Event)
    (files : List FsPath) :
    (runBatch proc files).1.failed_files = files.filterMap (failRecord proc) := by
  induction files with
  | nil => rfl
  | cons f fs ih =>
    simp only [runBatch, List.filterMap_cons, failRecord]
    cases h : (proc f).1 <;> simp [ih]

theorem runBatch_trace (proc : FsPath → Except PyErr Unit × List Event)
    (files : List FsPath) :
    (runBatch proc files).2 = files.flatMap (fun f => (proc f).2) := by
  induction files with
  | nil => rfl
  | cons f fs ih =>
    simp only [runBatch, List.flatMap_cons]
    cases h : (proc f).1 <;> simp [ih]

theorem runBatch_successful (proc : FsPath → Except PyErr Unit × List Event)
    (files : List FsPath) :
    (runBatch proc files).1.successful
      = files.countP (fun f => (failRecord proc f).isNone) := by
  induction files with
  | nil => rfl
  | cons f fs ih =>
    simp only [runBatch, List.countP_cons, failRecord]
    cases h : (proc f).1 <;> simp [ih, failRecord, h]

theorem runBatch_failed (proc : FsPath → Except PyErr Unit × List Event)
    (files : List FsPath) :
    (runBatch proc files).1.failed
      = files.countP (fun f => (failRecord proc f).isSome) := by
  induction files with
  | nil => rfl
  | cons f fs ih =>
    simp only [runBatch, List.countP_cons, failRecord]
    cases h : (proc f).1 <;> simp [ih, failRecord, h]

theorem collect_files_eq_raw (exts : List String) (entries : List Dirent) (recursive : Bool)
    (pat : Option String) :
    collect_files exts entries recursive pat =
      sortPaths
        (match pat with
         | some p => (collectRaw exts entries recursive).filter (fun f => fnmatch (pathName f) p)
         | none => collectRaw exts entries recursive) := by
  cases pat <;> rfl

theorem mem_collectRaw {exts : List String} {entries : List Dirent} {recursive : Bool}
    {p : FsPath} :
    p ∈ collectRaw exts entries recursive ↔
      ∃ e ∈ entries, e.rel = p ∧ collectPred exts recursive e = true := by
  unfold collectRaw collectPred
  simp only [List.mem_flatMap, List.mem_map, List.mem_filter, Bool.and_eq_true,
    List.any_eq_true]
  constructor
  · rintro ⟨ext, hext, e, ⟨he, hdep, hsuf⟩, hrel⟩
    exact ⟨e, he, hrel, hdep, ext, hext, hsuf⟩
  · rintro ⟨e, he, hrel, hdep, ext, hext, hsuf⟩
    exact ⟨ext, hext, e, ⟨he, hdep, hsuf⟩, hrel⟩

theorem mem_collect_files {exts : List String} {entries : List Dirent} {recursive : Bool}
    {pat : Option String} {p : FsPath} :
    p ∈ collect_files exts entries recursive pat ↔
      (∃ e ∈ entries, e.rel = p ∧ collectPred exts recursive e = true)
        ∧ patOk pat (pathName p) = true := by
  rw [collect_files_eq_raw]
  unfold sortPaths
  rw [(List.perm_insertionSort _ _).mem_iff]
  cases pat with
  | none => simp [patOk, mem_collectRaw]
  | some q => simp [patOk, List.mem_filter, mem_collectRaw]

theorem collectRaw_nodup {exts : List String} {entries : List Dirent} {recursive : Bool}
    (hex : exts.Pairwise (fun a b => ¬ a.data <:+ b.data ∧ ¬ b.data <:+ a.data))
    (hN : (entries.map Dirent.rel).Nodup) :
    (collectRaw exts entries recursive).Nodup := by
  unfold collectRaw
  rw [List.nodup_flatMap]
  constructor
  · intro ext _
    exact hN.sublist ((List.filter_sublist _).map _)
  · refine hex.imp ?_
    intro a b hab p hpa hpb
    simp only [List.mem_map, List.mem_filter, Bool.and_eq_true] at hpa hpb
    obtain ⟨e1, ⟨-, -, hs1⟩, hrel1⟩ := hpa
    obtain ⟨e2, ⟨-, -, hs2⟩, hrel2⟩ := hpb
    rw [hrel1] at hs1
    rw [hrel2] at hs2
    unfold strEndsWith at hs1 hs2
    rw [List.isSuffixOf_iff_suffix] at hs1 hs2
    rcases List.suffix_or_suffix_of_suffix hs1 hs2 with h | h
    · exact hab.1 h
    · exact hab.2 h

theorem collect_files_nodup {exts : List String} {entries : List Dirent} {recursive : Bool}
    {pat : Option String}
    (hex : exts.Pairwise (fun a b => ¬ a.data <:+ b.data ∧ ¬ b.data <:+ a.data))
    (hN : (entries.map Dirent.rel).Nodup) :
    (collect_files exts entries recursive pat).Nodup := by
  rw [collect_files_eq_raw]
  unfold sortPaths
  rw [(List.perm_insertionSort _ _).nodup_iff]
  cases pat with
  | none => exact collectRaw_nodup hex hN
  | some q => exact (collectRaw_nodup hex hN).filter _

theorem collect_files_sorted (exts : List String) (entries : List Dirent) (recursive : Bool)
    (pat : Option String) :
    (collect_files exts entries recursive pat).Sorted (· ≤ ·) := by
  rw [collect_files_eq_raw]
  exact List.sorted_insertionSort _ _

theorem mem_collect_simple {exts : List String} {entries : List Dirent} {recursive : Bool}
    {p : FsPath} :
    p ∈ collect_files exts entries recursive none ↔
      ∃ e ∈ entries, e.rel = p ∧ (recursive = true ∨ p.length = 1)
        ∧ ∃ ext ∈ exts, strEndsWith (pathName p) ext = true := by
  rw [mem_collect_files]
  simp only [patOk, and_true]
  unfold collectPred
  constructor
  · rintro ⟨e, he, hrel, hc⟩
    rw [Bool.and_eq_true, Bool.or_eq_true, beq_iff_eq, List.any_eq_true] at hc
    subst hrel
    obtain ⟨hdep, ext, hext, hsuf⟩ := hc
    exact ⟨e, he, rfl, hdep, ext, hext, hsuf⟩
  · rintro ⟨e, he, hrel, hdep, ext, hext, hsuf⟩
    subst hrel
    refine ⟨e, he, rfl, ?_⟩
    rw [Bool.and_eq_true, Bool.or_eq_true, beq_iff_eq, List.any_eq_true]
    exact ⟨hdep, ext, hext, hsuf⟩

/-! ## Claim theorems: discovery and batch driver -/

theorem text_exts_exclusive :
    TEXT_EXTENSIONS.Pairwise (fun a b => ¬ a.data <:+ b.data ∧ ¬ b.data <:+ a.data) := by
  decide

theorem audio_exts_exclusive :
    AUDIO_EXTENSIONS.Pairwise (fun a b => ¬ a.data <:+ b.data ∧ ¬ b.data <:+ a.data) := by
  decide

/-- C2: the batch driver attempts every item in list order (the run trace
is the in-order concatenation of the per-item traces, so a failure at item
k never prevents items k+1..N from being processed), each failure is
caught and recorded as the pair (filename, error message), and the driver
returns the pair (success count, failure count) with the two counts
summing to the number of input items; this is inherited by both tools'
`process_multiple_files`. -/
theorem C2_batch_driver (proc : FsPath → Except PyErr Unit × List Event)
    (files : List FsPath) :
    ((runBatch proc files).1.successful + (runBatch proc files).1.failed = files.length)
    ∧ ((runBatch proc files).2 = files.flatMap (fun f => (proc f).2))
    ∧ ((runBatch proc files).1.failed_files = files.filterMap (failRecord proc))
    ∧ (∀ (env : TextEnv) (output_dir : Option FsPath) (task : String)
        (pp rp : Option String),
        (ptext_process_multiple_files env files output_dir task pp rp).1.successful
          + (ptext_process_multiple_files env files output_dir task pp rp).1.failed
          = files.length)
    ∧ (∀ (env : AudioEnv) (output_dir : Option FsPath) (pt : Option String),
        (audio_process_multiple_files env files output_dir pt).1.successful
          + (audio_process_multiple_files env files output_dir pt).1.failed
          = files.length) :=
  ⟨runBatch_sum proc files, runBatch_trace proc files, runBatch_failed_files proc files,
    fun _ _ _ _ _ => runBatch_sum _ files, fun _ _ _ => runBatch_sum _ files⟩

/-- C3 (counterexample to the claim as stated): the discoverer does not
compare extensions case-insensitively.  `NOTES.TXT` has the
case-insensitive extension `.txt`, a member of the allow-list, yet the
discoverer returns the empty list for a directory holding exactly that
file (POSIX `Path.glob` is case-sensitive). -/
theorem C3_discoverer_counterexample :
    asciiLower (pySuffix "NOTES.TXT") ∈ TEXT_EXTENSIONS
    ∧ collect_text_files [⟨["NOTES.TXT"], false⟩] false none = [] := by
  constructor
  · decide
  · decide

/-- C3 (amended): for every directory listing (with distinct entry paths)
and recursive flag, each discoverer returns a deduplicated,
lexicographically sorted sequence containing exactly those entries whose
name ends, case-sensitively, with one of the fixed lowercase domain
extensions (audio: mp3/wav/aiff/aac/ogg/flac; text: txt/md/text); with the
recursive flag false, entries of subdirectories (depth > 1) are never
returned; and the result is the empty sequence, not an error, when
nothing matches. -/
theorem C3_discoverer_amended (entries : List Dirent) (recursive : Bool)
    (hN : (entries.map Dirent.rel).Nodup) :
    ((collect_text_files entries recursive none).Nodup
      ∧ (collect_text_files entries recursive none).Sorted (· ≤ ·)
      ∧ (∀ p, p ∈ collect_text_files entries recursive none ↔
          ∃ e ∈ entries, e.rel = p ∧ (recursive = true ∨ p.length = 1)
            ∧ ∃ ext ∈ TEXT_EXTENSIONS, strEndsWith (pathName p) ext = true)
      ∧ ((∀ e ∈ entries, ¬ collectPred TEXT_EXTENSIONS recursive e = true) →
          collect_text_files entries recursive none = []))
    ∧ ((collect_audio_files entries recursive none).Nodup
      ∧ (collect_audio_files entries recursive none).Sorted (· ≤ ·)
      ∧ (∀ p, p ∈ collect_audio_files entries recursive none ↔
          ∃ e ∈ entries, e.rel = p ∧ (recursive = true ∨ p.length = 1)
            ∧ ∃ ext ∈ AUDIO_EXTENSIONS, strEndsWith (pathName p) ext = true)
      ∧ ((∀ e ∈ entries, ¬ collectPred AUDIO_EXTENSIONS recursive e = true) →
          collect_audio_files entries recursive none = [])) := by
  refine ⟨⟨?_, ?_, ?_, ?_⟩, ⟨?_, ?_, ?_, ?_⟩⟩
  · exact collect_files_nodup text_exts_exclusive hN
  · exact collect_files_sorted _ entries recursive none
  · intro p
    exact mem_collect_simple
  · intro hnone
    rw [List.eq_nil_iff_forall_not_mem]
    intro p hp
    obtain ⟨⟨e, he, -, hc⟩, -⟩ := mem_collect_files.mp hp
    exact hnone e he hc
  · exact collect_files_nodup audio_exts_exclusive hN
  · exact collect_files_sorted _ entries recursive none
  · intro p
    exact mem_collect_simple
  · intro hnone
    rw [List.eq_nil_iff_forall_not_mem]
    intro p hp
    obtain ⟨⟨e, he, -, hc⟩, -⟩ := mem_collect_files.mp hp
    exact hnone e he hc

/-- Witness for C3: the amended theorem applied to the concrete listing
{a.txt, sub/b.md (depth 2), c.pdf}, non-recursively. -/
theorem C3_discoverer_witness :
    ((([⟨["a.txt"], false⟩, ⟨["sub", "b.md"], false⟩, ⟨["c.pdf"], false⟩] :
        List Dirent).map Dirent.rel).Nodup)
    ∧ ((collect_text_files [⟨["a.txt"], false⟩, ⟨["sub", "b.md"], false⟩, ⟨["c.pdf"], false⟩]
          false none).Nodup
      ∧ (collect_text_files [⟨["a.txt"], false⟩, ⟨["sub", "b.md"], false⟩, ⟨["c.pdf"], false⟩]
          false none).Sorted (· ≤ ·)
      ∧ (∀ p, p ∈ collect_text_files
            [⟨["a.txt"], false⟩, ⟨["sub", "b.md"], false⟩, ⟨["c.pdf"], false⟩] false none ↔
          ∃ e ∈ ([⟨["a.txt"], false⟩, ⟨["sub", "b.md"], false⟩, ⟨["c.pdf"], false⟩] :
              List Dirent), e.rel = p ∧ (false = true ∨ p.length = 1)
            ∧ ∃ ext ∈ TEXT_EXTENSIONS, strEndsWith (pathName p) ext = true)
      ∧ ((∀ e ∈ ([⟨["a.txt"], false⟩, ⟨["sub", "b.md"], false⟩, ⟨["c.pdf"], false⟩] :
            List Dirent), ¬ collectPred TEXT_EXTENSIONS false e = true) →
          collect_text_files [⟨["a.txt"], false⟩, ⟨["sub", "b.md"], false⟩, ⟨["c.pdf"], false⟩]
            false none = []))
    ∧ ((collect_audio_files [⟨["a.txt"], false⟩, ⟨["sub", "b.md"], false⟩, ⟨["c.pdf"], false⟩]
          false none).Nodup
      ∧ (collect_audio_files [⟨["a.txt"], false⟩, ⟨["sub", "b.md"], false⟩, ⟨["c.pdf"], false⟩]
          false none).Sorted (· ≤ ·)
      ∧ (∀ p, p ∈ collect_audio_files
            [⟨["a.txt"], false⟩, ⟨["sub", "b.md"], false⟩, ⟨["c.pdf"], false⟩] false none ↔
          ∃ e ∈ ([⟨["a.txt"], false⟩, ⟨["sub", "b.md"], false⟩, ⟨["c.pdf"], false⟩] :
              List Dirent), e.rel = p ∧ (false = true ∨ p.length = 1)
            ∧ ∃ ext ∈ AUDIO_EXTENSIONS, strEndsWith (pathName p) ext = true)
      ∧ ((∀ e ∈ ([⟨["a.txt"], false⟩, ⟨["sub", "b.md"], false⟩, ⟨["c.pdf"], false⟩] :
            List Dirent), ¬ collectPred AUDIO_EXTENSIONS false e = true) →
          collect_audio_files [⟨["a.txt"], false⟩, ⟨["sub", "b.md"], false⟩, ⟨["c.pdf"], false⟩]
            false none = [])) :=
  ⟨by decide, C3_discoverer_amended _ false (by decide)⟩

theorem foldl_ruleRecord (l : List Rule) (init : String) :
    l.foldl (fun acc r => acc ++ ruleRecord r) init = init ++ concatRuleRecords l := by
  induction l generalizing init with
  | nil => simp [concatRuleRecords]
  | cons r rs ih =>
    rw [List.foldl_cons, ih, concatRuleRecords, String.append_assoc]

theorem formatRulesText_eq (rules : List Rule) :
    formatRulesText rules = rulesHeader ++ concatRuleRecords rules ++ rulesFooter := by
  unfold formatRulesText
  rw [foldl_ruleRecord]

theorem formatRulesText_ne_empty (rules : List Rule) :
    (formatRulesText rules == "") = false := by
  rw [beq_eq_false_iff_ne]
  intro h
  have hlen := congrArg String.length h
  rw [formatRulesText_eq] at hlen
  simp only [String.length_append] at hlen
  have h1 : 0 < rulesHeader.length := by decide
  have h2 : (String.length "") = 0 := by decide
  omega

theorem common_load_prompt_base_ok {env : TextEnv} {pt cp : Option String} {base : String}
    (h : common_load_prompt env pt cp none = .ok base) :
    load_prompt_base env pt cp = .ok base := by
  unfold common_load_prompt at h
  split at h
  · exact absurd h (by simp)
  · rename_i b heq
    simp only [truthyOpt] at h
    simp only [Bool.false_eq_true, if_false, Option.some.injEq] at h
    rw [heq]
    simp only [Except.ok.injEq] at h ⊢
    exact h

/-! ## Claim theorems: prompt composition -/

/-- C5: with the base prompt resolving to `base`, a truthy rules path
naming an existing file composes as follows: a falsy parse (YAML null or
empty list) returns `base` unmodified (no markers, no empty block), and a
non-empty rules list returns `base` with a prepended block bounded by the
fixed start marker text (inside `rulesHeader`) and end marker text
(`rulesFooter`), holding exactly one labeled record per rule in order
(`concatRuleRecords`), where `ruleRecord` renders the present fields in a
fixed order and omits absent ones. -/
theorem C5_rules_block (env : TextEnv) (pt cp rp : Option String) (base : String)
    (hbase : common_load_prompt env pt cp none = .ok base)
    (hrp : truthyOpt rp = true)
    (hex : env.auxExists (rp.getD "") = true) :
    ((env.rulesParse (rp.getD "") = none ∨ env.rulesParse (rp.getD "") = some []) →
      common_load_prompt env pt cp rp = .ok base)
    ∧ (∀ (r : Rule) (rs : List Rule), env.rulesParse (rp.getD "") = some (r :: rs) →
      common_load_prompt env pt cp rp
        = .ok (rulesHeader ++ concatRuleRecords (r :: rs) ++ rulesFooter ++ base)) := by
  have hb := common_load_prompt_base_ok hbase
  constructor
  · intro hparse
    unfold common_load_prompt
    rw [hb]
    unfold load_rules
    rcases hparse with hparse | hparse <;> simp [hrp, hex, hparse]
  · intro r rs hparse
    unfold common_load_prompt
    rw [hb]
    unfold load_rules
    simp only [hrp, hex, hparse, Bool.not_true, Bool.false_eq_true, if_false, if_true,
      formatRulesText_ne_empty, formatRulesText_eq, String.append_assoc]
    have hne : (rulesHeader ++ (concatRuleRecords (r :: rs) ++ rulesFooter) == "") = false := by
      rw [beq_eq_false_iff_ne]
      intro hcontra
      have hlen := congrArg String.length hcontra
      simp only [String.length_append] at hlen
      have h1 : 0 < rulesHeader.length := by decide
      have h2 : (String.length "") = 0 := by decide
      omega
    rw [hne]
    simp

/-- Witness for C5: the empty rules file leaves the base prompt unchanged
and the non-empty one prepends the marker-bounded block. -/
theorem C5_rules_block_witness :
    (common_load_prompt cTextEnv none (some "p.txt") none = .ok "BASE"
      ∧ truthyOpt (some "er.yaml") = true
      ∧ cTextEnv.auxExists ((some "er.yaml" : Option String).getD "") = true
      ∧ cTextEnv.rulesParse ((some "er.yaml" : Option String).getD "") = none
      ∧ cTextEnv.rulesParse ((some "r.yaml" : Option String).getD "") = some [cRule])
    ∧ common_load_prompt cTextEnv none (some "p.txt") (some "er.yaml") = .ok "BASE"
    ∧ common_load_prompt cTextEnv none (some "p.txt") (some "r.yaml")
        = .ok (rulesHeader ++ concatRuleRecords [cRule] ++ rulesFooter ++ "BASE") :=
  ⟨⟨by decide, by decide, by decide, by decide, by decide⟩,
    (C5_rules_block cTextEnv none (some "p.txt") (some "er.yaml") "BASE"
      (by decide) (by decide) (by decide)).1 (Or.inl (by decide)),
    (C5_rules_block cTextEnv none (some "p.txt") (some "r.yaml") "BASE"
      (by decide) (by decide) (by decide)).2 cRule [] (by decide)⟩

/-- C6: prompt resolution gives a truthy custom path precedence over the
task type (the prompt type argument is ignored then); a named but missing
custom prompt file raises `FileNotFoundError`; a named but missing rules
file raises `FileNotFoundError`; and with neither a truthy task type nor
a truthy custom path it raises the missing-configuration `ValueError`. -/
theorem C6_prompt_resolution (env : TextEnv) (pt pt' cp rp : Option String) :
    (truthyOpt cp = true →
      common_load_prompt env pt cp rp = common_load_prompt env pt' cp rp)
    ∧ (truthyOpt cp = true → env.auxExists (cp.getD "") = false →
      common_load_prompt env pt cp rp
        = .error (.fileNotFound ("Prompt file not found: " ++ cp.getD "")))
    ∧ (truthyOpt pt = false → truthyOpt cp = false →
      common_load_prompt env pt cp rp
        = .error (.valueError "Either prompt_type or custom_path must be specified"))
    ∧ (∀ base, common_load_prompt env pt cp none = .ok base → truthyOpt rp = true →
      env.auxExists (rp.getD "") = false →
      common_load_prompt env pt cp rp
        = .error (.fileNotFound ("Rules file not found: " ++ rp.getD ""))) := by
  refine ⟨?_, ?_, ?_, ?_⟩
  · intro hcp
    unfold common_load_prompt load_prompt_base
    simp [hcp]
  · intro hcp hex
    unfold common_load_prompt load_prompt_base
    simp [hcp, hex]
  · intro hpt hcp
    unfold common_load_prompt load_prompt_base
    simp [hpt, hcp]
  · intro base hbase hrp hex
    have hb := common_load_prompt_base_ok hbase
    unfold common_load_prompt
    rw [hb]
    unfold load_rules
    simp [hrp, hex]

/-- Witness for C6: the four behaviours at concrete inputs. -/
theorem C6_prompt_resolution_witness :
    (truthyOpt (some "p.txt") = true
      ∧ common_load_prompt cTextEnv (some "summarize") (some "p.txt") none
          = common_load_prompt cTextEnv (some "headline") (some "p.txt") none)
    ∧ (cTextEnv.auxExists ((some "missing.txt" : Option String).getD "") = false
      ∧ common_load_prompt cTextEnv none (some "missing.txt") none
          = .error (.fileNotFound "Prompt file not found: missing.txt"))
    ∧ (common_load_prompt cTextEnv none none none
        = .error (.valueError "Either prompt_type or custom_path must be specified"))
    ∧ (common_load_prompt cTextEnv none (some "p.txt") (some "missing.yaml")
        = .error (.fileNotFound "Rules file not found: missing.yaml")) :=
  ⟨⟨by decide,
      (C6_prompt_resolution cTextEnv (some "summarize") (some "headline")
        (some "p.txt") none).1 (by decide)⟩,
    ⟨by decide,
      (C6_prompt_resolution cTextEnv none none (some "missing.txt") none).2.1
        (by decide) (by decide)⟩,
    (C6_prompt_resolution cTextEnv none none none none).2.2.1 (by decide) (by decide),
    (C6_prompt_resolution cTextEnv none none (some "p.txt") (some "missing.yaml")).2.2.2
      "BASE" (by decide) (by decide) (by decide)⟩

/-- C8: in the audio tool, prompt loading without a truthy custom path
never raises: it returns the content of `default_prompt.txt` when that
file exists and the fixed hardcoded built-in prompt string otherwise. -/
theorem C8_audio_default_prompt (env : AudioEnv) (pp : Option String)
    (h : truthyOpt pp = false) :
    transcribe_load_prompt env pp
      = .ok (if env.defaultPromptExists then env.defaultPromptText else builtin_prompt) := by
  unfold transcribe_load_prompt
  rw [h]
  by_cases hd : env.defaultPromptExists <;> simp [hd]

/-- Witness for C8: with no custom path and no `default_prompt.txt`, the
audio loader returns the built-in prompt without failing. -/
theorem C8_audio_default_prompt_witness :
    truthyOpt none = false
    ∧ transcribe_load_prompt cAudioEnv none = .ok builtin_prompt := by
  refine ⟨by decide, ?_⟩
  have h := C8_audio_default_prompt cAudioEnv none (by decide)
  simpa using h

/-! ## Claim theorems: prompt immutability across a batch (C1) -/

theorem process_text_file_genCall {env : TextEnv} {f : FsPath} {op : Option FsPath}
    {task : String} {pp rp : Option String} {P : String}
    (hP : ptextItemPrompt env task pp rp = .ok P) {pr c : String}
    (hmem : Event.genCall pr c ∈ (process_text_file env f op task pp rp).2) : pr = P := by
  unfold process_text_file at hmem
  dsimp only at hmem
  split at hmem
  · simp at hmem
  · split at hmem
    · simp at hmem
    · split at hmem
      · simp at hmem
      · split at hmem
        · simp at hmem
        · rename_i prompt heq
          have hPP : prompt = P := by
            rw [heq] at hP
            exact Except.ok.inj hP
          subst hPP
          split at hmem
          · simp at hmem
          · simp at hmem
          · split at hmem
            · simp at hmem
            · split at hmem
              · simp at hmem
                exact hmem.1
              · simp at hmem
                exact hmem.1

theorem transcribe_audio_trace_of_truthy {env : AudioEnv} {f : FsPath} {op : Option FsPath}
    {pt : Option String} (hpt : truthyOpt pt = true) :
    (∀ e ∈ (transcribe_audio env f op pt).2, e.isPromptLoad = false)
    ∧ (∀ pr h, Event.genCall pr h ∈ (transcribe_audio env f op pt).2 → pr = pt.getD "") := by
  constructor
  · intro e he
    unfold transcribe_audio at he
    dsimp only at he
    split at he
    · simp at he
    · split at he
      · simp at he
      · split at he
        · simp at he
        · split at he
          · simp at he
            subst he
            rfl
          · rename_i handle hup
            simp at he
            rcases he with rfl | he | rfl
            · rfl
            · cases hg : env.gen (pt.getD "") handle with
              | error m =>
                rw [hg] at he
                simp at he
                subst he
                rfl
              | ok transcript =>
                rw [hg] at he
                by_cases ht : transcript = ""
                · simp [ht] at he
                  subst he
                  rfl
                · simp [ht] at he
                  rcases he with rfl | rfl <;> rfl
            · rfl
  · intro pr h hmem
    unfold transcribe_audio at hmem
    dsimp only at hmem
    split at hmem
    · simp at hmem
    · split at hmem
      · simp at hmem
      · split at hmem
        · simp at hmem
        · split at hmem
          · simp at hmem
          · rename_i handle hup
            simp at hmem
            cases hg : env.gen (pt.getD "") handle with
            | error m =>
              rw [hg] at hmem
              simp at hmem
              exact hmem.1
            | ok transcript =>
              rw [hg] at hmem
              by_cases ht : transcript = ""
              · simp [ht] at hmem
                exact hmem.1
              · simp [ht] at hmem
                exact hmem.1

/-- C1 (corrected, amended): the audio tool computes the prompt exactly
once, before the batch loop (the run trace starts with the single
`promptLoad` and contains no other), and every generation call in the
batch receives exactly that prompt string — provided the composed prompt
text is non-empty (an empty prompt is falsy in Python and would be
re-resolved per item).  The text tool does not compute the prompt before
its loop; instead each item recomputes it from the same unchanged inputs
(see the counterexample), so every generation call in a text batch still
receives the identical prompt string that those inputs resolve to. -/
theorem C1_prompt_once_amended :
    (∀ (env : AudioEnv) (pa : Option String) (entries : List Dirent) (recursive : Bool)
        (pat : Option String) (od : Option FsPath) (p : String),
      transcribe_load_prompt env pa = .ok p → p ≠ "" →
      ((transcribe_main_dir env pa entries recursive pat od).2.countP Event.isPromptLoad = 1
        ∧ (transcribe_main_dir env pa entries recursive pat od).2.head? = some Event.promptLoad
        ∧ ∀ pr c, Event.genCall pr c ∈ (transcribe_main_dir env pa entries recursive pat od).2 →
            pr = p))
    ∧ (∀ (env : TextEnv) (files : List FsPath) (od : Option FsPath) (task : String)
        (pp rp : Option String) (P : String),
      ptextItemPrompt env task pp rp = .ok P →
      ∀ pr c, Event.genCall pr c ∈ (ptext_process_multiple_files env files od task pp rp).2 →
          pr = P) := by
  constructor
  · intro env pa entries recursive pat od p hload hp
    have hpt : truthyOpt (some p) = true := by
      simp [truthyOpt, hp]
    have hitem := fun (f : FsPath) (op : Option FsPath) =>
      @transcribe_audio_trace_of_truthy env f op (some p) hpt
    unfold transcribe_main_dir
    rw [hload]
    dsimp only
    by_cases hemp : (collect_audio_files entries recursive pat).isEmpty = true
    · rw [if_pos hemp]
      refine ⟨by simp [Event.isPromptLoad], rfl, ?_⟩
      intro pr c hmem
      simp at hmem
    · rw [if_neg hemp]
      dsimp only
      have htr :
          (audio_process_multiple_files env (collect_audio_files entries recursive pat) od
            (some p)).2
            = (collect_audio_files entries recursive pat).flatMap
                (fun f => (transcribe_audio env f (audioOutPath od f) (some p)).2) :=
        runBatch_trace _ _
      refine ⟨?_, rfl, ?_⟩
      · rw [List.countP_cons]
        have hzero :
            (audio_process_multiple_files env (collect_audio_files entries recursive pat) od
              (some p)).2.countP Event.isPromptLoad = 0 := by
          rw [htr, List.countP_eq_zero]
          intro e he
          rw [List.mem_flatMap] at he
          obtain ⟨f, -, hef⟩ := he
          rw [(hitem f (audioOutPath od f)).1 e hef]
          simp
        rw [hzero]
        simp [Event.isPromptLoad]
      · intro pr c hmem
        rcases List.mem_cons.mp hmem with hpr | hpr
        · exact absurd hpr (by simp)
        · rw [htr, List.mem_flatMap] at hpr
          obtain ⟨f, -, hef⟩ := hpr
          have := (hitem f (audioOutPath od f)).2 pr c hef
          simpa using this
  · intro env files od task pp rp P hP pr c hmem
    unfold ptext_process_multiple_files at hmem
    rw [runBatch_trace, List.mem_flatMap] at hmem
    obtain ⟨f, -, hef⟩ := hmem
    exact process_text_file_genCall hP hef

/-- C1 (counterexample to the claim as stated): in the text tool the
prompt is not computed once before the loop — it is recomputed inside
each item.  A concrete 2-file batch performs 2 prompt loads. -/
theorem C1_prompt_once_counterexample :
    ((ptext_process_multiple_files cTextEnv [["a.txt"], ["b.txt"]] none "summarize" none
        none).2.countP Event.isPromptLoad) = 2 := by
  decide

/-- Witness for C1: the audio tool's single up-front prompt load on a
concrete run, and the constant prompt across a concrete text batch. -/
theorem C1_prompt_once_witness :
    (transcribe_load_prompt cAudioEnv none = .ok builtin_prompt ∧ builtin_prompt ≠ "")
    ∧ ((transcribe_main_dir cAudioEnv none [⟨["x.mp3"], false⟩] false none none).2.countP
        Event.isPromptLoad = 1)
    ∧ (ptextItemPrompt cTextEnv "summarize" none none = .ok "SUM")
    ∧ (∀ pr c, Event.genCall pr c ∈
        (ptext_process_multiple_files cTextEnv [["a.txt"]] none "summarize" none none).2 →
        pr = "SUM") :=
  ⟨⟨by decide, by decide⟩,
    (C1_prompt_once_amended.1 cAudioEnv none [⟨["x.mp3"], false⟩] false none none
      builtin_prompt (by decide) (by decide)).1,
    by decide,
    C1_prompt_once_amended.2 cTextEnv [["a.txt"]] none "summarize" none none "SUM"
      (by decide)⟩

/-- C7: once the upload has succeeded, exactly one remote-deletion
attempt happens, it is the last observable action of the item (so it
follows the generation attempt whether generation succeeded or raised),
and the item's outcome is unchanged by whether that deletion succeeds —
the cleanup failure is swallowed, never reaching the caller. -/
theorem C7_cleanup_always (env : AudioEnv) (f : FsPath) (op : Option FsPath)
    (pt : Option String) (handle : String)
    (hn : env.node f ≠ .absent)
    (hext : AUDIO_EXTENSIONS.contains (asciiLower (pySuffix (pathName f))) = true)
    (hkey : env.apiKeyOk = true)
    (hup : env.upload f = .ok handle) :
    ((transcribe_audio env f op pt).2.countP Event.isDeleteAttempt = 1)
    ∧ ((transcribe_audio env f op pt).2.getLast?
        = some (Event.deleteAttempt handle (env.deleteRemote handle)))
    ∧ (∀ d, (transcribe_audio { env with deleteRemote := d } f op pt).1
        = (transcribe_audio env f op pt).1) := by
  refine ⟨?_, ?_, ?_⟩
  · unfold transcribe_audio
    dsimp only
    rw [if_neg hn, hext]
    simp only [Bool.not_true, Bool.false_eq_true, if_false]
    rw [hkey]
    simp only [Bool.not_true, Bool.false_eq_true, if_false]
    rw [hup]
    dsimp only
    repeat' split
    all_goals
      simp [Event.isDeleteAttempt, List.countP_append, List.countP_cons]
  · unfold transcribe_audio
    dsimp only
    rw [if_neg hn, hext]
    simp only [Bool.not_true, Bool.false_eq_true, if_false]
    rw [hkey]
    simp only [Bool.not_true, Bool.false_eq_true, if_false]
    rw [hup]
    dsimp only
    repeat' split
    all_goals
      simp [List.getLast?_concat]
  · intro d
    have hload : transcribe_load_prompt { env with deleteRemote := d } none
        = transcribe_load_prompt env none := rfl
    unfold transcribe_audio
    dsimp only
    rw [hload]
    rw [if_neg hn, if_neg hn, hext]
    simp only [Bool.not_true, Bool.false_eq_true, if_false]
    rw [hkey]
    simp only [Bool.not_true, Bool.false_eq_true, if_false]
    rw [hup]

/-- Witness for C7: a concrete item whose upload succeeds; the deletion
attempt is last and the outcome ignores a failing remote delete. -/
theorem C7_cleanup_always_witness :
    (cAudioEnv.node ["a", "x.mp3"] ≠ .absent
      ∧ AUDIO_EXTENSIONS.contains (asciiLower (pySuffix (pathName ["a", "x.mp3"]))) = true
      ∧ cAudioEnv.apiKeyOk = true
      ∧ cAudioEnv.upload ["a", "x.mp3"] = .ok "a/x.mp3")
    ∧ ((transcribe_audio cAudioEnv ["a", "x.mp3"] none (some "P")).2.countP
        Event.isDeleteAttempt = 1)
    ∧ ((transcribe_audio cAudioEnv ["a", "x.mp3"] none (some "P")).2.getLast?
        = some (Event.deleteAttempt "a/x.mp3" (cAudioEnv.deleteRemote "a/x.mp3")))
    ∧ ((transcribe_audio { cAudioEnv with deleteRemote := fun _ => false }
          ["a", "x.mp3"] none (some "P")).1
        = (transcribe_audio cAudioEnv ["a", "x.mp3"] none (some "P")).1) :=
  ⟨⟨by decide, by decide, by decide, by decide⟩,
    (C7_cleanup_always cAudioEnv ["a", "x.mp3"] none (some "P") "a/x.mp3"
      (by decide) (by decide) (by decide) (by decide)).1,
    (C7_cleanup_always cAudioEnv ["a", "x.mp3"] none (some "P") "a/x.mp3"
      (by decide) (by decide) (by decide) (by decide)).2.1,
    (C7_cleanup_always cAudioEnv ["a", "x.mp3"] none (some "P") "a/x.mp3"
      (by decide) (by decide) (by decide) (by decide)).2.2 (fun _ => false)⟩

/-! ## Claim theorems: directories named like files (C9) -/

theorem process_text_file_dir_err {env : TextEnv} {f : FsPath} {op : Option FsPath}
    {task : String} {pp rp : Option String} {P : String}
    (hnode : env.node f = .dir)
    (hext : TEXT_EXTENSIONS.contains (asciiLower (pySuffix (pathName f))) = true)
    (htask : (task == "custom" && !truthyOpt pp) = false)
    (hP : ptextItemPrompt env task pp rp = .ok P) :
    (process_text_file env f op task pp rp).1
      = .error (.isADirectory ("[Errno 21] Is a directory: " ++ pathStr f)) := by
  unfold process_text_file
  dsimp only
  rw [hnode, hext]
  simp only [Bool.not_true, Bool.false_eq_true, if_false, reduceCtorEq, reduceIte]
  rw [htask]
  simp only [Bool.false_eq_true, if_false]
  rw [hP]

/-- C9: the discoverer imposes no regular-file restriction — a
subdirectory whose name matches an allow-listed extension is returned
like any file — and when the batch then processes such a directory entry
the read fails with `IsADirectoryError`, which the driver records in the
failure list as (name, error message). -/
theorem C9_discoverer_no_file_check (entries : List Dirent) (e : Dirent) (recursive : Bool)
    (env : TextEnv) (files : List FsPath) (od : Option FsPath) (task : String)
    (pp rp : Option String) (P : String) (f : FsPath)
    (he : e ∈ entries) (hdir : e.isDir = true)
    (hdep : recursive = true ∨ e.rel.length = 1)
    (hexts : ∃ ext ∈ TEXT_EXTENSIONS, strEndsWith (pathName e.rel) ext = true)
    (hf : f ∈ files) (hnode : env.node f = .dir)
    (hext : TEXT_EXTENSIONS.contains (asciiLower (pySuffix (pathName f))) = true)
    (htask : (task == "custom" && !truthyOpt pp) = false)
    (hP : ptextItemPrompt env task pp rp = .ok P) :
    e.rel ∈ collect_text_files entries recursive none
    ∧ (pathName f, "[Errno 21] Is a directory: " ++ pathStr f)
        ∈ (ptext_process_multiple_files env files od task pp rp).1.failed_files := by
  constructor
  · exact mem_collect_simple.mpr ⟨e, he, rfl, hdep, hexts⟩
  · unfold ptext_process_multiple_files
    rw [runBatch_failed_files, List.mem_filterMap]
    refine ⟨f, hf, ?_⟩
    unfold failRecord
    rw [process_text_file_dir_err hnode hext htask hP]
    rfl

/-- Witness for C9: the subdirectory `docs/notes.txt` is discovered by a
recursive scan and then recorded as a batch failure. -/
theorem C9_discoverer_no_file_check_witness :
    ((⟨["docs", "notes.txt"], true⟩ : Dirent) ∈ [(⟨["docs", "notes.txt"], true⟩ : Dirent)]
      ∧ (⟨["docs", "notes.txt"], true⟩ : Dirent).isDir = true
      ∧ cTextEnv.node ["docs", "notes.txt"] = .dir
      ∧ ptextItemPrompt cTextEnv "summarize" none none = .ok "SUM")
    ∧ ["docs", "notes.txt"] ∈ collect_text_files [⟨["docs", "notes.txt"], true⟩] true none
    ∧ ("notes.txt", "[Errno 21] Is a directory: docs/notes.txt")
        ∈ (ptext_process_multiple_files cTextEnv [["docs", "notes.txt"]] none "summarize"
            none none).1.failed_files := by
  refine ⟨⟨by decide, by decide, by decide, by decide⟩, ?_⟩
  have h := C9_discoverer_no_file_check [⟨["docs", "notes.txt"], true⟩]
    ⟨["docs", "notes.txt"], true⟩ true cTextEnv [["docs", "notes.txt"]] none "summarize"
    none none "SUM" ["docs", "notes.txt"]
    (by decide) (by decide) (Or.inl rfl) ⟨".txt", by decide, by decide⟩
    (by decide) (by decide) (by decide) (by decide) (by decide)
  simpa using h

/-! ## Claim theorems: colliding output paths (C10) -/

theorem lastWrite_go (b : List Event) (i : Option String) (p : FsPath) :
    b.foldl
        (fun acc e =>
          match e with
          | .write q t => if q = p then some t else acc
          | _ => acc) i
      = match b.foldl
            (fun acc e =>
              match e with
              | .write q t => if q = p then some t else acc
              | _ => acc) none with
        | some t => some t
        | none => i := by
  induction b generalizing i with
  | nil => simp
  | cons e b ih =>
    simp only [List.foldl_cons]
    cases e with
    | write q t =>
      by_cases hq : q = p
      · simp only [hq, eq_self_iff_true, if_true]
        rw [ih (some t)]
        cases hv : b.foldl
            (fun acc e =>
              match e with
              | .write q t => if q = p then some t else acc
              | _ => acc) none <;> simp [hv]
      · simp only [if_neg hq]
        exact ih i
    | promptLoad => exact ih i
    | upload q => exact ih i
    | genCall a b' => exact ih i
    | deleteAttempt a b' => exact ih i

theorem lastWrite_append (a b : List Event) (p : FsPath) :
    lastWrite (a ++ b) p
      = match lastWrite b p with
        | some t => some t
        | none => lastWrite a p := by
  unfold lastWrite
  rw [List.foldl_append]
  exact lastWrite_go b _ p

theorem transcribe_audio_ok_write {env : AudioEnv} {f : FsPath} {p : FsPath}
    {pt : Option String} {ev : List Event}
    (h : transcribe_audio env f (some p) pt = (.ok (), ev)) :
    ∃ t, Event.write p t ∈ ev ∧ lastWrite ev p = some t := by
  unfold transcribe_audio at h
  dsimp only at h
  by_cases h1 : env.node f = Node.absent
  · rw [if_pos h1] at h
    exact absurd h (by simp)
  · rw [if_neg h1] at h
    by_cases h2 : (!AUDIO_EXTENSIONS.contains (asciiLower (pySuffix (pathName f)))) = true
    · rw [if_pos h2] at h
      exact absurd h (by simp)
    · rw [if_neg h2] at h
      by_cases h3 : (!env.apiKeyOk) = true
      · rw [if_pos h3] at h
        exact absurd h (by simp)
      · rw [if_neg h3] at h
        cases hup : env.upload f with
        | error m =>
          rw [hup] at h
          exact absurd h (by simp)
        | ok handle =>
          rw [hup] at h
          dsimp only at h
          by_cases hpt : truthyOpt pt = true
          · rw [if_pos hpt] at h
            dsimp only at h
            cases hg : env.gen (pt.getD "") handle with
            | error m =>
              rw [hg] at h
              exact absurd h (by simp)
            | ok transcript =>
              rw [hg] at h
              dsimp only at h
              by_cases ht : transcript = ""
              · simp [ht] at h
              · have hbeq : (transcript == "") = false := by simp [ht]
                rw [hbeq] at h
                simp only [Bool.false_eq_true, if_false, Prod.mk.injEq] at h
                obtain ⟨-, hev⟩ := h
                subst hev
                refine ⟨transcript, by simp, ?_⟩
                simp [lastWrite]
          · rw [if_neg hpt] at h
            dsimp only at h
            cases hlp : transcribe_load_prompt env none with
            | error e =>
              rw [hlp] at h
              cases hg : env.gen "" handle with
              | error m =>
                rw [hg] at h
                exact absurd h (by simp)
              | ok transcript =>
                rw [hg] at h
                dsimp only at h
                by_cases ht : transcript = ""
                · simp [ht] at h
                · have hbeq : (transcript == "") = false := by simp [ht]
                  rw [hbeq] at h
                  simp only [Bool.false_eq_true, if_false, Prod.mk.injEq] at h
                  obtain ⟨-, hev⟩ := h
                  subst hev
                  refine ⟨transcript, by simp, ?_⟩
                  simp [lastWrite]
            | ok s =>
              rw [hlp] at h
              cases hg : env.gen s handle with
              | error m =>
                rw [hg] at h
                exact absurd h (by simp)
              | ok transcript =>
                rw [hg] at h
                dsimp only at h
                by_cases ht : transcript = ""
                · simp [ht] at h
                · have hbeq : (transcript == "") = false := by simp [ht]
                  rw [hbeq] at h
                  simp only [Bool.false_eq_true, if_false, Prod.mk.injEq] at h
                  obtain ⟨-, hev⟩ := h
                  subst hev
                  refine ⟨transcript, by simp, ?_⟩
                  simp [lastWrite]

theorem process_text_file_ok_write {env : TextEnv} {f : FsPath} {p : FsPath}
    {task : String} {pp rp : Option String} {ev : List Event}
    (h : process_text_file env f (some p) task pp rp = (.ok (), ev)) :
    ∃ t, Event.write p t ∈ ev ∧ lastWrite ev p = some t := by
  unfold process_text_file at h
  dsimp only at h
  cases hnode : env.node f with
  | absent =>
    rw [hnode] at h
    exact absurd h (by simp)
  | dir =>
    rw [hnode] at h
    simp only [reduceCtorEq, if_false] at h
    by_cases h2 : (!TEXT_EXTENSIONS.contains (asciiLower (pySuffix (pathName f)))) = true
    · rw [if_pos h2] at h
      exact absurd h (by simp)
    · rw [if_neg h2] at h
      by_cases h3 : (task == "custom" && !truthyOpt pp) = true
      · rw [if_pos h3] at h
        exact absurd h (by simp)
      · rw [if_neg h3] at h
        cases hpr : ptextItemPrompt env task pp rp with
        | error e =>
          rw [hpr] at h
          exact absurd h (by simp)
        | ok prompt =>
          rw [hpr] at h
          exact absurd h (by simp)
  | file content =>
    rw [hnode] at h
    simp only [reduceCtorEq, if_false] at h
    by_cases h2 : (!TEXT_EXTENSIONS.contains (asciiLower (pySuffix (pathName f)))) = true
    · rw [if_pos h2] at h
      exact absurd h (by simp)
    · rw [if_neg h2] at h
      by_cases h3 : (task == "custom" && !truthyOpt pp) = true
      · rw [if_pos h3] at h
        exact absurd h (by simp)
      · rw [if_neg h3] at h
        cases hpr : ptextItemPrompt env task pp rp with
        | error e =>
          rw [hpr] at h
          exact absurd h (by simp)
        | ok prompt =>
          rw [hpr] at h
          dsimp only at h
          by_cases h4 : (!env.apiKeyOk) = true
          · rw [if_pos h4] at h
            exact absurd h (by simp)
          · rw [if_neg h4] at h
            cases hg : generate_with_gemini env prompt content with
            | error e =>
              rw [hg] at h
              exact absurd h (by simp)
            | ok result =>
              rw [hg] at h
              simp only [Prod.mk.injEq] at h
              obtain ⟨-, hev⟩ := h
              subst hev
              refine ⟨result, by simp, ?_⟩
              simp [lastWrite]

/-- C10: under a shared output directory, the input-to-output mapping of
both tools is not injective — two distinct inputs with the same stem
resolve to the same output path; when both items succeed, both are
counted as successes and the content at the shared path after the batch
is the later item's write (the later write of `save_output` /
`write_text` overwrites the earlier one). -/
theorem C10_same_stem_collision :
    (∀ (env : AudioEnv) (d : FsPath) (f1 f2 : FsPath) (pt : Option String)
        (ev1 ev2 : List Event),
      pyStem (pathName f1) = pyStem (pathName f2) →
      transcribe_audio env f1 (audioOutPath (some d) f1) pt = (.ok (), ev1) →
      transcribe_audio env f2 (audioOutPath (some d) f2) pt = (.ok (), ev2) →
      audioOutPath (some d) f1 = audioOutPath (some d) f2
      ∧ (audio_process_multiple_files env [f1, f2] (some d) pt).1.successful = 2
      ∧ (audio_process_multiple_files env [f1, f2] (some d) pt).1.failed = 0
      ∧ (audio_process_multiple_files env [f1, f2] (some d) pt).2 = ev1 ++ ev2
      ∧ ∃ t2, Event.write (d ++ [pyStem (pathName f1) ++ "_transcript.txt"]) t2 ∈ ev2
          ∧ lastWrite ((audio_process_multiple_files env [f1, f2] (some d) pt).2)
              (d ++ [pyStem (pathName f1) ++ "_transcript.txt"]) = some t2)
    ∧ (∀ (env : TextEnv) (d : FsPath) (f1 f2 : FsPath) (task : String)
        (pp rp : Option String) (ev1 ev2 : List Event),
      pyStem (pathName f1) = pyStem (pathName f2) →
      process_text_file env f1 (ptextOutPath (some d) task f1) task pp rp = (.ok (), ev1) →
      process_text_file env f2 (ptextOutPath (some d) task f2) task pp rp = (.ok (), ev2) →
      ptextOutPath (some d) task f1 = ptextOutPath (some d) task f2
      ∧ (ptext_process_multiple_files env [f1, f2] (some d) task pp rp).1.successful = 2
      ∧ (ptext_process_multiple_files env [f1, f2] (some d) task pp rp).1.failed = 0
      ∧ (ptext_process_multiple_files env [f1, f2] (some d) task pp rp).2 = ev1 ++ ev2
      ∧ ∃ t2, Event.write (d ++ [pyStem (pathName f1) ++ taskSuffix task ++ ".md"]) t2 ∈ ev2
          ∧ lastWrite ((ptext_process_multiple_files env [f1, f2] (some d) task pp rp).2)
              (d ++ [pyStem (pathName f1) ++ taskSuffix task ++ ".md"]) = some t2) := by
  constructor
  · intro env d f1 f2 pt ev1 ev2 hstem h1 h2
    have hb : audio_process_multiple_files env [f1, f2] (some d) pt
        = (⟨2, 0, []⟩, ev1 ++ (ev2 ++ [])) := by
      unfold audio_process_multiple_files
      simp only [runBatch]
      rw [h1, h2]
    have h2' : transcribe_audio env f2
        (some (d ++ [pyStem (pathName f2) ++ "_transcript.txt"])) pt = (.ok (), ev2) := h2
    obtain ⟨t2, hw, hlw⟩ := transcribe_audio_ok_write h2'
    refine ⟨?_, ?_, ?_, ?_, t2, ?_, ?_⟩
    · unfold audioOutPath
      simp [hstem]
    · rw [hb]
    · rw [hb]
    · rw [hb]
      simp
    · rw [hstem]
      exact hw
    · rw [hb]
      rw [List.append_nil, hstem, lastWrite_append, hlw]
  · intro env d f1 f2 task pp rp ev1 ev2 hstem h1 h2
    have hb : ptext_process_multiple_files env [f1, f2] (some d) task pp rp
        = (⟨2, 0, []⟩, ev1 ++ (ev2 ++ [])) := by
      unfold ptext_process_multiple_files
      simp only [runBatch]
      rw [h1, h2]
    have h2' : process_text_file env f2
        (some (d ++ [pyStem (pathName f2) ++ taskSuffix task ++ ".md"])) task pp rp
        = (.ok (), ev2) := h2
    obtain ⟨t2, hw, hlw⟩ := process_text_file_ok_write h2'
    refine ⟨?_, ?_, ?_, ?_, t2, ?_, ?_⟩
    · unfold ptextOutPath
      simp [hstem]
    · rw [hb]
    · rw [hb]
    · rw [hb]
      simp
    · rw [hstem]
      exact hw
    · rw [hb]
      rw [List.append_nil, hstem, lastWrite_append, hlw]

/-- Witness for C10: in the audio tool, `a/x.mp3` and `b/x.mp3` both
succeed into the shared directory `out`, both writes target
`out/x_transcript.txt`, and the final content there is the second item's
transcript; in the text tool, `x/doc.txt` and `y/doc.txt` likewise
collide on `out/doc_summarize.md` with the second item's result last. -/
theorem C10_same_stem_collision_witness :
    (pyStem (pathName ["a", "x.mp3"]) = pyStem (pathName ["b", "x.mp3"])
      ∧ transcribe_audio cAudioEnv ["a", "x.mp3"]
          (audioOutPath (some ["out"]) ["a", "x.mp3"]) (some "P")
          = (.ok (), [Event.upload ["a", "x.mp3"], Event.genCall "P" "a/x.mp3",
              Event.write ["out", "x_transcript.txt"] "T:a/x.mp3",
              Event.deleteAttempt "a/x.mp3" true])
      ∧ transcribe_audio cAudioEnv ["b", "x.mp3"]
          (audioOutPath (some ["out"]) ["b", "x.mp3"]) (some "P")
          = (.ok (), [Event.upload ["b", "x.mp3"], Event.genCall "P" "b/x.mp3",
              Event.write ["out", "x_transcript.txt"] "T:b/x.mp3",
              Event.deleteAttempt "b/x.mp3" true]))
    ∧ (audioOutPath (some ["out"]) ["a", "x.mp3"]
          = audioOutPath (some ["out"]) ["b", "x.mp3"]
      ∧ (audio_process_multiple_files cAudioEnv [["a", "x.mp3"], ["b", "x.mp3"]]
          (some ["out"]) (some "P")).1.successful = 2
      ∧ (audio_process_multiple_files cAudioEnv [["a", "x.mp3"], ["b", "x.mp3"]]
          (some ["out"]) (some "P")).1.failed = 0
      ∧ (audio_process_multiple_files cAudioEnv [["a", "x.mp3"], ["b", "x.mp3"]]
          (some ["out"]) (some "P")).2
          = [Event.upload ["a", "x.mp3"], Event.genCall "P" "a/x.mp3",
              Event.write ["out", "x_transcript.txt"] "T:a/x.mp3",
              Event.deleteAttempt "a/x.mp3" true]
            ++ [Event.upload ["b", "x.mp3"], Event.genCall "P" "b/x.mp3",
              Event.write ["out", "x_transcript.txt"] "T:b/x.mp3",
              Event.deleteAttempt "b/x.mp3" true]
      ∧ ∃ t2, Event.write (["out"] ++ [pyStem (pathName ["a", "x.mp3"]) ++ "_transcript.txt"])
            t2
            ∈ [Event.upload ["b", "x.mp3"], Event.genCall "P" "b/x.mp3",
                Event.write ["out", "x_transcript.txt"] "T:b/x.mp3",
                Event.deleteAttempt "b/x.mp3" true]
          ∧ lastWrite ((audio_process_multiple_files cAudioEnv
                [["a", "x.mp3"], ["b", "x.mp3"]] (some ["out"]) (some "P")).2)
              (["out"] ++ [pyStem (pathName ["a", "x.mp3"]) ++ "_transcript.txt"])
              = some t2)
    ∧ (pyStem (pathName ["x", "doc.txt"]) = pyStem (pathName ["y", "doc.txt"])
      ∧ process_text_file cTextEnv2 ["x", "doc.txt"]
          (ptextOutPath (some ["out"]) "summarize" ["x", "doc.txt"]) "summarize" none none
          = (.ok (), [Event.promptLoad, Event.genCall "SUM" "XDOC",
              Event.write ["out", "doc_summarize.md"] "GEN:XDOC"])
      ∧ process_text_file cTextEnv2 ["y", "doc.txt"]
          (ptextOutPath (some ["out"]) "summarize" ["y", "doc.txt"]) "summarize" none none
          = (.ok (), [Event.promptLoad, Event.genCall "SUM" "YDOC",
              Event.write ["out", "doc_summarize.md"] "GEN:YDOC"]))
    ∧ (ptextOutPath (some ["out"]) "summarize" ["x", "doc.txt"]
          = ptextOutPath (some ["out"]) "summarize" ["y", "doc.txt"]
      ∧ (ptext_process_multiple_files cTextEnv2 [["x", "doc.txt"], ["y", "doc.txt"]]
          (some ["out"]) "summarize" none none).1.successful = 2
      ∧ (ptext_process_multiple_files cTextEnv2 [["x", "doc.txt"], ["y", "doc.txt"]]
          (some ["out"]) "summarize" none none).1.failed = 0
      ∧ (ptext_process_multiple_files cTextEnv2 [["x", "doc.txt"], ["y", "doc.txt"]]
          (some ["out"]) "summarize" none none).2
          = [Event.promptLoad, Event.genCall "SUM" "XDOC",
              Event.write ["out", "doc_summarize.md"] "GEN:XDOC"]
            ++ [Event.promptLoad, Event.genCall "SUM" "YDOC",
              Event.write ["out", "doc_summarize.md"] "GEN:YDOC"]
      ∧ ∃ t2, Event.write
            (["out"] ++ [pyStem (pathName ["x", "doc.txt"]) ++ taskSuffix "summarize" ++ ".md"])
            t2
            ∈ [Event.promptLoad, Event.genCall "SUM" "YDOC",
                Event.write ["out", "doc_summarize.md"] "GEN:YDOC"]
          ∧ lastWrite ((ptext_process_multiple_files cTextEnv2
                [["x", "doc.txt"], ["y", "doc.txt"]] (some ["out"]) "summarize" none none).2)
              (["out"] ++ [pyStem (pathName ["x", "doc.txt"]) ++ taskSuffix "summarize" ++ ".md"])
              = some t2) :=
  ⟨⟨by decide, by decide, by decide⟩,
    C10_same_stem_collision.1 cAudioEnv ["out"] ["a", "x.mp3"] ["b", "x.mp3"] (some "P")
      [Event.upload ["a", "x.mp3"], Event.genCall "P" "a/x.mp3",
        Event.write ["out", "x_transcript.txt"] "T:a/x.mp3",
        Event.deleteAttempt "a/x.mp3" true]
      [Event.upload ["b", "x.mp3"], Event.genCall "P" "b/x.mp3",
        Event.write ["out", "x_transcript.txt"] "T:b/x.mp3",
        Event.deleteAttempt "b/x.mp3" true]
      (by decide) (by decide) (by decide),
    ⟨by decide, by decide, by decide⟩,
    C10_same_stem_collision.2 cTextEnv2 ["out"] ["x", "doc.txt"] ["y", "doc.txt"]
      "summarize" none none
      [Event.promptLoad, Event.genCall "SUM" "XDOC",
        Event.write ["out", "doc_summarize.md"] "GEN:XDOC"]
      [Event.promptLoad, Event.genCall "SUM" "YDOC",
        Event.write ["out", "doc_summarize.md"] "GEN:YDOC"]
      (by decide) (by decide) (by decide)⟩
